import Mathlib

/-!
Verification development for the sound-effects subsystem of snake_pixiretro
(`src/pxr_sfx.cpp`).  The module's global mutable state (resource table,
channel tracker, deferred unload queue, cached channel volumes) is embedded as
an explicit state record `SfxState`, and each public operation of the module is
embedded as a function on that record.  Machine `int` values are modelled as
`Int`; C++ `float` quantities that only ever hold exactly representable values
(the 0.5s error-beep duration, small products) are modelled as `ℚ`.

C++ `assert` statements are modelled as preconditions: an operation containing
an assert returns `Option` and yields `none` when the asserted condition
fails (the call does not complete normally).

External collaborators are parameters:
  * the WAV decoder (`Mix_LoadWAV`) is a function `String → Option MixChunk`;
  * the backend channel allocation of the four `Mix_Play...`/`Mix_FadeIn...`
    calls is a parameter `Option Int` (`none` models the backend returning -1);
  * the per-sample value computation of `generateSineBeep` (which calls the
    C `sinf` on `float`, not representable exactly) is a parameter
    `Nat → Int` giving the sample value at each index; no claim depends on
    the sample values, only on the buffer's length and layout.

Constants that live in headers not present under `src/` are modelled from the
spec where needed; each such definition carries a note.  SDL_mixer behaviour
relied upon by the code is modelled from SDL_mixer's documented contract
(`Mix_Volume(ch, v)` stores the clamped volume and returns the channel's
previous volume; `Mix_AllocateChannels` starts every channel at the maximum
volume 128).
-/

namespace PxrSfx

/-- Resource keys are C++ `int` (`ResourceKey_t`). -/
abbrev ResourceKey : Type := Int

/-- Sound channel ids are C++ `int` (`SoundChannel_t`). -/
abbrev SoundChannel : Type := Int

/-- Modelled from the spec: minimum channel volume, the lower clamp bound
(headers with the constant are not under `src/`; the spec gives the clamp
range as `[0, MAX_VOLUME]`). -/
def MIN_VOLUME : Int := 0

/-- Modelled from the spec: maximum channel volume.  SDL_mixer's
`MIX_MAX_VOLUME` is 128 and the module clamps to this bound. -/
def MAX_VOLUME : Int := 128

/-- SDL_mixer's maximum mixing volume (`MIX_MAX_VOLUME = 128`). -/
def MIX_MAX_VOLUME : Int := 128

/-- Modelled from the spec: the "no channel / operation failed" sentinel,
a reserved index outside `[0, numMixChannels)` and distinct from
`ALL_CHANNELS`. -/
def NULL_CHANNEL : SoundChannel := -2

/-- Modelled from the spec: the broadcast sentinel.  It must be -1 because the
module passes it straight to `Mix_HaltChannel`/`Mix_Volume`, where -1 means
"all channels", and the range asserts read `ALL_CHANNELS <= channel`. -/
def ALL_CHANNELS : SoundChannel := -1

/-- The "channel is idle" occupant sentinel (`pxr_sfx.cpp:53`). -/
def nullResourceKey : ResourceKey := -1

/-- Frequency of the synthesized error beep (`pxr_sfx.cpp:32`). -/
def errorSoundFreq_hz : Int := 200

/-- Duration of the synthesized error beep (`pxr_sfx.cpp:33`); `0.5f` is
exactly representable, modelled as the rational 1/2. -/
def errorSoundDuration_s : ℚ := 1/2

/-- Volume of the synthesized error beep (`pxr_sfx.cpp:34`). -/
def errorSoundVolume : Int := MAX_VOLUME

/-- Reserved name of the fallback sound (`pxr_sfx.cpp:35`). -/
def errorSoundName : String := "sfxerror"

/-- Modelled from the spec: fixed sounds directory prepended to load paths
(the literal lives in a header not under `src/`). -/
def RESOURCE_PATH_SOUNDS : String := "assets/sounds/"

/-- Modelled from the spec: fixed WAV file extension (`io::Wav::FILE_EXTENSION`
is not under `src/`). -/
def WAV_FILE_EXTENSION : String := ".wav"

/-- The five supported integer sample formats (`SampleFormat`). -/
inductive SampleFormat where
  | U8
  | S8
  | U16LSB
  | S16LSB
  | S32LSB
deriving DecidableEq, Repr

/-- Byte width of one sample (`sizeof(T)` for the template instantiation
chosen by `generateErrorSound`, `pxr_sfx.cpp:109-119`). -/
def sizeofSample : SampleFormat → Nat
  | SampleFormat.U8 => 1
  | SampleFormat.S8 => 1
  | SampleFormat.U16LSB => 2
  | SampleFormat.S16LSB => 2
  | SampleFormat.S32LSB => 4

/-- Embedding of `Mix_Chunk` as owned PCM data: `abuf` is the sample buffer
(one entry per sample), `alen` its byte length, as built at
`pxr_sfx.cpp:101-105`. -/
structure MixChunk where
  allocated : Int
  abuf : List Int
  alen : Nat
  volume : Int
deriving DecidableEq, Repr

/-- Embedding of `SoundResource` (`pxr_sfx.cpp:21-26`); the non-null chunk
pointer is the chunk value itself. -/
structure SoundResource where
  name : String
  chunk : MixChunk
  referenceCount : Int
deriving DecidableEq, Repr

/-- Embedding of `SFXConfiguration` (fields as used by `pxr_sfx.cpp`). -/
structure SFXConfiguration where
  samplingFreq_hz : Int
  sampleFormat : SampleFormat
  outputMode : Int
  numMixChannels : Int
  chunkSize : Int
deriving DecidableEq, Repr

/-- The module's global mutable state (`pxr_sfx.cpp:36-66`): the resource
table `sounds` (the `unordered_map` as an association list with unique keys),
the key allocator, the fallback key, the channel tracker `channelPlayback`,
the cached `channelVolume` array, the deferred `unloadQueue`, plus the
backend mixer's own per-channel volume (`mixVolume`), which SDL_mixer keeps
internally and which `Mix_Volume` reads and writes. -/
structure SfxState where
  cfg : SFXConfiguration
  sounds : List (ResourceKey × SoundResource)
  nextResourceKey : ResourceKey
  errorSoundKey : ResourceKey
  channelPlayback : List ResourceKey
  channelVolume : List Int
  mixVolume : List Int
  unloadQueue : List ResourceKey
deriving DecidableEq, Repr

/-- Conversion of a nonnegative-for-our-uses rational to C++ `int` by
truncation toward zero, as the implicit `float → int` conversion at
`pxr_sfx.cpp:87` does. -/
def cTruncToInt (q : ℚ) : Int := Int.tdiv q.num q.den

/-- The sample count of `generateSineBeep` (`pxr_sfx.cpp:87`):
`int sampleCount = samplingFreq_hz * waveDuration_s`, a `float` product
truncated to `int` by the implicit conversion; the C++ then allocates
`new T[sampleCount]`, undefined for a negative count, so the model takes
`Int.toNat`. -/
def sineBeepSampleCount (cfg : SFXConfiguration) (waveDuration_s : ℚ) : Nat :=
  (cTruncToInt ((cfg.samplingFreq_hz : ℚ) * waveDuration_s)).toNat

/-- Embedding of `generateSineBeep<T>` (`pxr_sfx.cpp:81-107`): the PCM buffer
holds `sineBeepSampleCount` samples, its byte length is that count times
`sizeof(T)` (`sz`), and the chunk volume is `errorSoundVolume`.  `sampleVal`
abstracts the per-sample `sinf`-based value computation (exact `float` sine
values are outside the embedding; no claim concerns them); `waveFreq_hz`
only feeds the sine argument. -/
def generateSineBeep (cfg : SFXConfiguration) (sampleVal : Nat → Int)
    (sz : Nat) (waveFreq_hz : Int) (waveDuration_s : ℚ) : MixChunk :=
  { allocated := 1
    abuf := (List.range (sineBeepSampleCount cfg waveDuration_s)).map sampleVal
    alen := sineBeepSampleCount cfg waveDuration_s * sz
    volume := errorSoundVolume }

/-- The chunk built by `generateErrorSound` (`pxr_sfx.cpp:109-119`): a sine
beep in the configured sample format. -/
def generateErrorSoundChunk (cfg : SFXConfiguration) (sampleVal : Nat → Int) :
    MixChunk :=
  generateSineBeep cfg sampleVal (sizeofSample cfg.sampleFormat)
    errorSoundFreq_hz errorSoundDuration_s

/-- State after a successful `initialize(cfg)` (`pxr_sfx.cpp:176-200`):
channel arrays sized to `numMixChannels` (playback idle, cached volumes at
`MAX_VOLUME`, backend mixer channels at SDL's default `MIX_MAX_VOLUME`), and
`generateErrorSound` has installed the fallback resource under key 0 with
reference count 0, advancing the key allocator to 1. -/
def initSfx (cfg : SFXConfiguration) (sampleVal : Nat → Int) : SfxState :=
  { cfg := cfg
    sounds := [(0, { name := errorSoundName
                     chunk := generateErrorSoundChunk cfg sampleVal
                     referenceCount := 0 })]
    nextResourceKey := 1
    errorSoundKey := 0
    channelPlayback := List.replicate cfg.numMixChannels.toNat nullResourceKey
    channelVolume := List.replicate cfg.numMixChannels.toNat MAX_VOLUME
    mixVolume := List.replicate cfg.numMixChannels.toNat MIX_MAX_VOLUME
    unloadQueue := [] }

/-- `sounds.find(key)` on the association list (keys are unique, as in the
`unordered_map`). -/
def lookupKey : List (ResourceKey × SoundResource) → ResourceKey →
    Option SoundResource
  | [], _ => none
  | p :: rest, key => if p.1 = key then some p.2 else lookupKey rest key

/-- `sounds.erase(iterator-to-key)`: removes the (unique) entry with the
given key. -/
def eraseKey : List (ResourceKey × SoundResource) → ResourceKey →
    List (ResourceKey × SoundResource)
  | [], _ => []
  | p :: rest, key => if p.1 = key then rest else p :: eraseKey rest key

/-- The de-duplication loop of `loadSoundWAV` (`pxr_sfx.cpp:252-260`): find
the entry whose resource name matches, increment its reference count in
place, and report its key.  (The C++ iterates the `unordered_map` in
unspecified order; with unique names — the module invariant — order is
immaterial, and the model takes the first match.) -/
def findBump : List (ResourceKey × SoundResource) → String →
    Option (ResourceKey × List (ResourceKey × SoundResource))
  | [], _ => none
  | p :: rest, name =>
    if p.2.name = name then
      some (p.1,
        (p.1, { p.2 with referenceCount := p.2.referenceCount + 1 }) :: rest)
    else
      match findBump rest name with
      | none => none
      | some (key, rest2) => some (key, p :: rest2)

/-- `sounds.find(key)->second._referenceCount++` as used by
`returnErrorSound` (`pxr_sfx.cpp:239-246`); `none` when the key is absent
(the C++ asserts it is present). -/
def bumpRefByKey : List (ResourceKey × SoundResource) → ResourceKey →
    Option (List (ResourceKey × SoundResource))
  | [], _ => none
  | p :: rest, key =>
    if p.1 = key then
      some ((p.1, { p.2 with referenceCount := p.2.referenceCount + 1 }) :: rest)
    else
      match bumpRefByKey rest key with
      | none => none
      | some rest2 => some (p :: rest2)

/-- Embedding of `onChannelFinished` (`pxr_sfx.cpp:72-76`): the backend's
completion notification clears the channel's occupant; the range assert is a
precondition. -/
def onChannelFinished (s : SfxState) (channel : Int) : Option SfxState :=
  if 0 ≤ channel ∧ channel < s.cfg.numMixChannels then
    some { s with
      channelPlayback := s.channelPlayback.set channel.toNat nullResourceKey }
  else none

/-- Embedding of `unloadSound` (`pxr_sfx.cpp:212-219`): frees the chunk and
erases the table entry; asserts the key is not the fallback key and is
present. -/
def unloadSound (s : SfxState) (soundKey : ResourceKey) : Option SfxState :=
  if soundKey = s.errorSoundKey then none
  else
    match lookupKey s.sounds soundKey with
    | none => none
    | some _ => some { s with sounds := eraseKey s.sounds soundKey }

/-- Runs `unloadSound` on each key of a list in order (the loop at
`pxr_sfx.cpp:227-230`). -/
def unloadTail : SfxState → List ResourceKey → Option SfxState
  | s, [] => some s
  | s, k :: rest =>
    match unloadSound s k with
    | none => none
    | some s2 => unloadTail s2 rest

/-- Embedding of `unloadUnusedSounds` (`pxr_sfx.cpp:221-232`).  The C++ runs
`std::remove_if` over `unloadQueue` with predicate "key occupies no channel",
then calls `unloadSound` on every element from the returned iterator to the
end, then erases that range.  `std::remove_if` compacts the kept elements
(those occupying some channel) to the front in order; positions from the
returned iterator onward are never written for a trivially copyable element
type, so they still hold the queue's ORIGINAL values at those positions.
Hence the freed keys are `unloadQueue.drop kept.length` — the original tail
of the queue — not the set of keys the predicate selected, and the queue
afterwards is the kept prefix. -/
def unloadUnusedSounds (s : SfxState) : Option SfxState :=
  let kept := s.unloadQueue.filter (fun k => decide (k ∈ s.channelPlayback))
  let tail := s.unloadQueue.drop kept.length
  match unloadTail s tail with
  | none => none
  | some s2 => some { s2 with unloadQueue := kept }

/-- Embedding of `service` (`pxr_sfx.cpp:234-237`); `dt` is unused by the
source. -/
def service (dt : ℚ) (s : SfxState) : Option SfxState :=
  unloadUnusedSounds s

/-- Embedding of `returnErrorSound` (`pxr_sfx.cpp:239-246`): bump the
fallback resource's reference count (asserted present) and return the
fallback key. -/
def returnErrorSound (s : SfxState) : Option (ResourceKey × SfxState) :=
  match bumpRefByKey s.sounds s.errorSoundKey with
  | none => none
  | some newSounds => some (s.errorSoundKey, { s with sounds := newSounds })

/-- The path string built at `pxr_sfx.cpp:263-266`. -/
def wavpath (soundName : String) : String :=
  RESOURCE_PATH_SOUNDS ++ soundName ++ WAV_FILE_EXTENSION

/-- Embedding of `loadSoundWAV` (`pxr_sfx.cpp:248-288`).  `decode` models
`Mix_LoadWAV` applied to the built path (`none` = decode failure).  Order of
the source: de-duplicate by name; else decode; on failure delegate to
`returnErrorSound`; on success store the new resource with reference count 1
under a freshly allocated key. -/
def loadSoundWAV (decode : String → Option MixChunk) (s : SfxState)
    (soundName : String) : Option (ResourceKey × SfxState) :=
  match findBump s.sounds soundName with
  | some (key, newSounds) => some (key, { s with sounds := newSounds })
  | none =>
    match decode (wavpath soundName) with
    | none => returnErrorSound s
    | some chunk =>
      let newKey := s.nextResourceKey
      some (newKey, { s with
        nextResourceKey := s.nextResourceKey + 1
        sounds := s.sounds ++
          [(newKey, { name := soundName, chunk := chunk, referenceCount := 1 })] })

/-- Embedding of `queueUnloadSound` (`pxr_sfx.cpp:290-304`): asserts the key
is not the fallback key (precondition, modelled as `none`); a nonexistent key
or an already-queued key is a logged no-op; otherwise the key is appended to
the unload queue. -/
def queueUnloadSound (s : SfxState) (soundKey : ResourceKey) :
    Option SfxState :=
  if soundKey = s.errorSoundKey then none
  else
    match lookupKey s.sounds soundKey with
    | none => some s
    | some _ =>
      if soundKey ∈ s.unloadQueue then some s
      else some { s with unloadQueue := s.unloadQueue ++ [soundKey] }

/-- Embedding of `findChunk` (`pxr_sfx.cpp:306-314`): table lookup, `none`
standing for the null chunk pointer. -/
def findChunk (s : SfxState) (soundKey : ResourceKey) : Option MixChunk :=
  (lookupKey s.sounds soundKey).map SoundResource.chunk

/-- Common playback-start logic shared by the four play variants
(`pxr_sfx.cpp:326-368`): resolve the chunk (failure → `NULL_CHANNEL`, state
untouched); `mixResult` is the backend's reply (`none` models `-1`, mapped by
`onPlayError` to `NULL_CHANNEL`); on a granted channel the source asserts the
channel is currently idle and records the occupancy. -/
def startPlayback (s : SfxState) (soundKey : ResourceKey)
    (mixResult : Option Int) : Option (SoundChannel × SfxState) :=
  match findChunk s soundKey with
  | none => some (NULL_CHANNEL, s)
  | some _ =>
    match mixResult with
    | none => some (NULL_CHANNEL, s)
    | some channel =>
      if channel < 0 then none
      else
        match s.channelPlayback.get? channel.toNat with
        | none => none
        | some occupant =>
          if occupant = nullResourceKey then
            some (channel, { s with
              channelPlayback := s.channelPlayback.set channel.toNat soundKey })
          else none

/-- Embedding of `playSound` (`pxr_sfx.cpp:326-335`); `mixResult` is the
outcome of `Mix_PlayChannel(-1, chunk, loops)`. -/
def playSound (s : SfxState) (soundKey : ResourceKey) (loops : Int)
    (mixResult : Option Int) : Option (SoundChannel × SfxState) :=
  startPlayback s soundKey mixResult

/-- Embedding of `playSoundTimed` (`pxr_sfx.cpp:337-346`). -/
def playSoundTimed (s : SfxState) (soundKey : ResourceKey) (loops : Int)
    (playDuration_ms : Int) (mixResult : Option Int) :
    Option (SoundChannel × SfxState) :=
  startPlayback s soundKey mixResult

/-- Embedding of `playSoundFadeIn` (`pxr_sfx.cpp:348-357`). -/
def playSoundFadeIn (s : SfxState) (soundKey : ResourceKey) (loops : Int)
    (fadeDuration_ms : Int) (mixResult : Option Int) :
    Option (SoundChannel × SfxState) :=
  startPlayback s soundKey mixResult

/-- Embedding of `playSoundFadeInTimed` (`pxr_sfx.cpp:359-368`). -/
def playSoundFadeInTimed (s : SfxState) (soundKey : ResourceKey) (loops : Int)
    (fadeDuration_ms : Int) (playDuration_ms : Int) (mixResult : Option Int) :
    Option (SoundChannel × SfxState) :=
  startPlayback s soundKey mixResult

/-- `std::clamp(v, lo, hi)` for `lo ≤ hi`. -/
def clampInt (v lo hi : Int) : Int := max lo (min v hi)

/-- SDL_mixer's `Mix_Volume(channel, vol)` for a single channel and
`vol ≥ 0`: stores `min vol MIX_MAX_VOLUME` as the channel's mixing volume and
returns the PREVIOUS volume (SDL_mixer's documented contract). -/
def mixVolumeCall (mixVolume : List Int) (ch : Nat) (vol : Int) :
    Int × List Int :=
  (mixVolume.getD ch 0, mixVolume.set ch (min vol MIX_MAX_VOLUME))

/-- Embedding of `setChannelVolume` (`pxr_sfx.cpp:421-427`): no-op on
`NULL_CHANNEL`; range assert as precondition; `ALL_CHANNELS` then indexes
`channelVolume[-1]`, out of bounds (undefined), modelled as `none`; otherwise
clamps, calls `Mix_Volume`, and caches `Mix_Volume`'s RETURN VALUE — the
channel's previous volume — in `channelVolume[channel]`. -/
def setChannelVolume (s : SfxState) (channel : SoundChannel) (volume : Int) :
    Option SfxState :=
  if channel = NULL_CHANNEL then some s
  else if ¬ (ALL_CHANNELS ≤ channel ∧ channel ≤ s.cfg.numMixChannels - 1) then
    none
  else if channel = ALL_CHANNELS then none
  else
    let vol := clampInt volume MIN_VOLUME MAX_VOLUME
    let call := mixVolumeCall s.mixVolume channel.toNat vol
    some { s with
      mixVolume := call.2
      channelVolume := s.channelVolume.set channel.toNat call.1 }

/-- Embedding of `getChannelVolume` (`pxr_sfx.cpp:429-434`): returns 0 on
`NULL_CHANNEL`; range assert as precondition; `ALL_CHANNELS` would read
`channelVolume[-1]`, out of bounds, modelled as `none`; otherwise returns the
cached entry. -/
def getChannelVolume (s : SfxState) (channel : SoundChannel) : Option Int :=
  if channel = NULL_CHANNEL then some 0
  else if ¬ (ALL_CHANNELS ≤ channel ∧ channel ≤ s.cfg.numMixChannels - 1) then
    none
  else if channel = ALL_CHANNELS then none
  else s.channelVolume.get? channel.toNat

end PxrSfx

namespace PxrSfx

/-- A small configuration used by concrete evaluations: 8 Hz sampling, two
mix channels. -/
def cfg8 : SFXConfiguration :=
  { samplingFreq_hz := 8, sampleFormat := SampleFormat.S16LSB, outputMode := 2
    numMixChannels := 2, chunkSize := 512 }

/-- The fallback chunk `initialize(cfg8)` builds, written out: 8 Hz times
0.5 s truncates to 4 samples of 2 bytes (S16LSB); sample values taken from
the all-zero sample function.  `errChunk8_eval` below proves this equals
`generateErrorSoundChunk cfg8 (fun _ => 0)`. -/
def errChunk8 : MixChunk :=
  { allocated := 1, abuf := [0, 0, 0, 0], alen := 8, volume := MAX_VOLUME }

/-- The fallback resource as installed by `initialize(cfg8)`. -/
def errRes8 : SoundResource :=
  { name := errorSoundName, chunk := errChunk8, referenceCount := 0 }

/-- The state right after a successful `initialize(cfg8)`, written out;
`fresh8_eval` below proves it equals `initSfx cfg8 (fun _ => 0)`. -/
def fresh8 : SfxState :=
  { cfg := cfg8
    sounds := [(0, errRes8)]
    nextResourceKey := 1
    errorSoundKey := 0
    channelPlayback := [nullResourceKey, nullResourceKey]
    channelVolume := [MAX_VOLUME, MAX_VOLUME]
    mixVolume := [MIX_MAX_VOLUME, MIX_MAX_VOLUME]
    unloadQueue := [] }

/-- A decoded-WAV stand-in chunk. -/
def dummyChunk : MixChunk :=
  { allocated := 1, abuf := [3, 5], alen := 4, volume := MAX_VOLUME }

/-- A single-channel configuration for the unload-queue scenario. -/
def cfgOne : SFXConfiguration :=
  { samplingFreq_hz := 8, sampleFormat := SampleFormat.U8, outputMode := 2
    numMixChannels := 1, chunkSize := 512 }

/-- The fallback chunk `initialize(cfgOne)` builds, written out: 8 Hz times
0.5 s truncates to 4 samples of 1 byte (U8); `errChunkOne_eval` below proves
this equals `generateErrorSoundChunk cfgOne (fun _ => 0)`. -/
def errChunkOne : MixChunk :=
  { allocated := 1, abuf := [0, 0, 0, 0], alen := 4, volume := MAX_VOLUME }

/-- The fallback resource as installed by `initialize(cfgOne)`. -/
def errResOne : SoundResource :=
  { name := errorSoundName, chunk := errChunkOne, referenceCount := 0 }

/-- A loaded sound "bang" under key 1, queued for unload, occupying no
channel. -/
def resB : SoundResource := { name := "bang", chunk := dummyChunk, referenceCount := 1 }

/-- A loaded sound "chime" under key 2, queued for unload while still playing
on channel 0. -/
def resC : SoundResource := { name := "chime", chunk := dummyChunk, referenceCount := 1 }

/-- Reachable state for the deferred-unload scenario: after
`initialize(cfgOne)`, load "bang" (key 1) and "chime" (key 2), play "chime"
on channel 0, then `queueUnloadSound(1)` and `queueUnloadSound(2)`. -/
def c1State : SfxState :=
  { cfg := cfgOne
    sounds := [(0, errResOne), (1, resB), (2, resC)]
    nextResourceKey := 3
    errorSoundKey := 0
    channelPlayback := [2]
    channelVolume := [MAX_VOLUME]
    mixVolume := [MIX_MAX_VOLUME]
    unloadQueue := [1, 2] }

/-- What `service` actually produces from `c1State`: key 2 (still playing) is
freed, key 1 (idle) stays loaded, and the queue keeps key 2. -/
def c1After : SfxState :=
  { c1State with sounds := [(0, errResOne), (1, resB)], unloadQueue := [2] }

/-- A loaded sound "beep" under key 1. -/
def beepRes : SoundResource := { name := "beep", chunk := dummyChunk, referenceCount := 1 }

/-- Reachable state: after `initialize(cfg8)`, one successful `load("beep")`
returning key 1. -/
def c4State : SfxState :=
  { cfg := cfg8
    sounds := [(0, errRes8), (1, beepRes)]
    nextResourceKey := 2
    errorSoundKey := 0
    channelPlayback := [nullResourceKey, nullResourceKey]
    channelVolume := [MAX_VOLUME, MAX_VOLUME]
    mixVolume := [MIX_MAX_VOLUME, MIX_MAX_VOLUME]
    unloadQueue := [] }

/-- A 3 Hz configuration on which truncation and rounding of the sample
count differ. -/
def cfg3 : SFXConfiguration :=
  { samplingFreq_hz := 3, sampleFormat := SampleFormat.S16LSB, outputMode := 2
    numMixChannels := 1, chunkSize := 512 }

end PxrSfx

namespace PxrSfx

theorem findBump_spec (name : String) (pre post : List (ResourceKey × SoundResource))
    (k : ResourceKey) (r : SoundResource)
    (hpre : ∀ p ∈ pre, p.2.name ≠ name) (hr : r.name = name) :
    findBump (pre ++ (k, r) :: post) name =
      some (k, pre ++ (k, { r with referenceCount := r.referenceCount + 1 }) :: post) := by
  induction pre with
  | nil => simp [findBump, hr]
  | cons p ps ih =>
    have hp : p.2.name ≠ name := hpre p (List.mem_cons_self p ps)
    have ihh := ih (fun q hq => hpre q (List.mem_cons_of_mem p hq))
    simp [findBump, hp, ihh]

theorem findBump_of_no_match (name : String) (l : List (ResourceKey × SoundResource))
    (h : ∀ p ∈ l, p.2.name ≠ name) : findBump l name = none := by
  induction l with
  | nil => simp [findBump]
  | cons p ps ih =>
    have hp : p.2.name ≠ name := h p (List.mem_cons_self p ps)
    have ihh := ih (fun q hq => h q (List.mem_cons_of_mem p hq))
    simp [findBump, hp, ihh]

theorem bumpRefByKey_spec (key : ResourceKey) (pre post : List (ResourceKey × SoundResource))
    (r : SoundResource) (hpre : ∀ p ∈ pre, p.1 ≠ key) :
    bumpRefByKey (pre ++ (key, r) :: post) key =
      some (pre ++ (key, { r with referenceCount := r.referenceCount + 1 }) :: post) := by
  induction pre with
  | nil => simp [bumpRefByKey]
  | cons p ps ih =>
    have hp : p.1 ≠ key := hpre p (List.mem_cons_self p ps)
    have ihh := ih (fun q hq => hpre q (List.mem_cons_of_mem p hq))
    simp [bumpRefByKey, hp, ihh]

theorem cTruncToInt_eq_floor (q : ℚ) (hq : 0 ≤ q) : cTruncToInt q = ⌊q⌋ := by
  rw [Rat.floor_def, cTruncToInt]
  exact Int.tdiv_eq_ediv (Rat.num_nonneg.mpr hq) (Int.natCast_nonneg q.den)

theorem sineBeepSampleCount_cfg8 :
    sineBeepSampleCount cfg8 errorSoundDuration_s = 4 := by
  have h0 : (0:ℚ) ≤ (cfg8.samplingFreq_hz : ℚ) * errorSoundDuration_s := by
    norm_num [cfg8, errorSoundDuration_s]
  rw [sineBeepSampleCount, cTruncToInt_eq_floor _ h0]
  have h1 : ⌊(cfg8.samplingFreq_hz : ℚ) * errorSoundDuration_s⌋ = 4 := by
    norm_num [cfg8, errorSoundDuration_s]
  rw [h1]
  decide

/-- The explicit chunk `errChunk8` is exactly what `generateErrorSound`
builds under `cfg8` with the all-zero sample function. -/
theorem errChunk8_eval : generateErrorSoundChunk cfg8 (fun _ => 0) = errChunk8 := by
  simp only [generateErrorSoundChunk, generateSineBeep, sineBeepSampleCount_cfg8]
  decide

/-- The explicit state `fresh8` is exactly the `initialize(cfg8)` state. -/
theorem fresh8_eval : initSfx cfg8 (fun _ => 0) = fresh8 := by
  simp only [initSfx, errChunk8_eval]
  decide

theorem sineBeepSampleCount_cfgOne :
    sineBeepSampleCount cfgOne errorSoundDuration_s = 4 := by
  have h0 : (0:ℚ) ≤ (cfgOne.samplingFreq_hz : ℚ) * errorSoundDuration_s := by
    norm_num [cfgOne, errorSoundDuration_s]
  rw [sineBeepSampleCount, cTruncToInt_eq_floor _ h0]
  have h1 : ⌊(cfgOne.samplingFreq_hz : ℚ) * errorSoundDuration_s⌋ = 4 := by
    norm_num [cfgOne, errorSoundDuration_s]
  rw [h1]
  decide

/-- The explicit chunk `errChunkOne` is exactly what `generateErrorSound`
builds under `cfgOne` with the all-zero sample function. -/
theorem errChunkOne_eval :
    generateErrorSoundChunk cfgOne (fun _ => 0) = errChunkOne := by
  simp only [generateErrorSoundChunk, generateSineBeep, sineBeepSampleCount_cfgOne]
  decide

/-- C1: the claim says a key in the unload queue is never freed by `service`
while some channel's occupant equals that key.  The code violates it:
`unloadUnusedSounds` frees the elements after `std::remove_if`'s returned
iterator, which are the queue's original tail positions, not the keys the
predicate selected.  From `c1State` (queue `[1, 2]`, key 2 playing on channel
0, key 1 idle), one `service` call frees key 2 — still the occupant of
channel 0 — while key 1, which no channel occupies, stays loaded and the
queue afterwards holds key 2. -/
theorem C1_service_frees_playing_sound :
    service 0 c1State = some c1After ∧
    (2 : Int) ∈ c1State.unloadQueue ∧
    (2 : Int) ∈ c1State.channelPlayback ∧
    lookupKey c1After.sounds 2 = none ∧
    (2 : Int) ∈ c1After.channelPlayback ∧
    (1 : Int) ∈ c1State.unloadQueue ∧
    (1 : Int) ∉ c1State.channelPlayback ∧
    lookupKey c1After.sounds 1 = some resB := by decide

/-- C2: the claim says `setChannelVolume(c, v)` then `getChannelVolume(c)`
returns `v` clamped, in particular `-5` yields `MIN_VOLUME`.  The code caches
`Mix_Volume`'s return value, which is the channel's PREVIOUS volume, so on a
freshly initialized subsystem `setChannelVolume(0, -5)` then
`getChannelVolume(0)` yields `MAX_VOLUME` (the pre-set volume), not
`MIN_VOLUME = clamp(-5)`. -/
theorem C2_get_after_set_returns_previous_volume :
    (setChannelVolume fresh8 0 (-5)).bind (fun s1 => getChannelVolume s1 0) =
      some MAX_VOLUME ∧
    some MAX_VOLUME ≠ some (clampInt (-5) MIN_VOLUME MAX_VOLUME) := by decide

/-- C3 counterexample: the claim says `queueUnload` on the fallback key is a
logged no-op leaving the state unchanged, i.e. the call completes with the
state it was given.  On a freshly initialized subsystem the call instead
fails the assert `soundKey != errorSoundKey` (`pxr_sfx.cpp:292`): it does not
complete normally. -/
theorem C3_counterexample :
    queueUnloadSound fresh8 fresh8.errorSoundKey = none ∧
    queueUnloadSound fresh8 fresh8.errorSoundKey ≠ some fresh8 := by decide

/-- C3 amended: `queueUnload` with the fallback key is a caller contract
violation rejected by an assertion (a programming error per the spec's own
error taxonomy), not a logged no-op; the call never completes normally, so no
completing call ever adds the fallback key to the unload queue. -/
theorem C3_queueUnload_fallback_asserts (s : SfxState) :
    queueUnloadSound s s.errorSoundKey = none := by
  simp [queueUnloadSound]

/-- C4: when an asset with the requested name is already in the resource
table (at key `k`, the key the first load returned, and no earlier entry has
that name), a further `loadSoundWAV` returns the same key `k`, increments
exactly that asset's reference count by one, and leaves every other entry and
every other state component unchanged — no decoding is attempted (the result
holds for every `decode`). -/
theorem C4_load_dedup_bumps_refcount (decode : String → Option MixChunk)
    (s : SfxState) (name : String)
    (pre post : List (ResourceKey × SoundResource))
    (k : ResourceKey) (r : SoundResource)
    (hs : s.sounds = pre ++ (k, r) :: post)
    (hpre : ∀ p ∈ pre, p.2.name ≠ name) (hr : r.name = name) :
    loadSoundWAV decode s name =
      some (k, { s with
        sounds := pre ++ (k, { r with referenceCount := r.referenceCount + 1 }) :: post }) := by
  simp [loadSoundWAV, hs, findBump_spec name pre post k r hpre hr]

theorem C4_witness :
    loadSoundWAV (fun _ => none) c4State "beep" =
      some (1, { c4State with
        sounds := [(0, errRes8)] ++
          (1, { beepRes with referenceCount := beepRes.referenceCount + 1 }) :: [] }) :=
  C4_load_dedup_bumps_refcount (fun _ => none) c4State "beep"
    [(0, errRes8)] [] 1 beepRes rfl (by decide) rfl

/-- C5: when the requested name is not in the table and the decoder fails on
the built path, `loadSoundWAV` returns the fallback key, the fallback asset's
reference count goes up by exactly one, and no new table entry is created
(the table keeps exactly its old entries, with only the fallback's count
changed). -/
theorem C5_load_failure_returns_fallback (decode : String → Option MixChunk)
    (s : SfxState) (name : String)
    (pre post : List (ResourceKey × SoundResource)) (er : SoundResource)
    (hnames : ∀ p ∈ s.sounds, p.2.name ≠ name)
    (hdecode : decode (wavpath name) = none)
    (hs : s.sounds = pre ++ (s.errorSoundKey, er) :: post)
    (hpre : ∀ p ∈ pre, p.1 ≠ s.errorSoundKey) :
    loadSoundWAV decode s name =
      some (s.errorSoundKey, { s with
        sounds := pre ++
          (s.errorSoundKey, { er with referenceCount := er.referenceCount + 1 }) :: post }) := by
  have h1 : findBump s.sounds name = none := findBump_of_no_match name s.sounds hnames
  have h2 := bumpRefByKey_spec s.errorSoundKey pre post er hpre
  rw [← hs] at h2
  simp [loadSoundWAV, h1, hdecode, returnErrorSound, h2]

theorem C5_witness :
    loadSoundWAV (fun _ => none) c4State "missing" =
      some (c4State.errorSoundKey, { c4State with
        sounds := [] ++
          (c4State.errorSoundKey,
            { errRes8 with referenceCount := errRes8.referenceCount + 1 }) :: [(1, beepRes)] }) :=
  C5_load_failure_returns_fallback (fun _ => none) c4State "missing"
    [] [(1, beepRes)] errRes8 (by decide) rfl rfl (by decide)

/-- C6 counterexample: the claim says the chunk generator's sample count is
`round(samplingRate_hz * duration_s)`.  At 3 Hz and 0.5 s the buffer holds
`trunc(1.5) = 1` sample, while `round(1.5) = 2`. -/
theorem C6_counterexample :
    (generateSineBeep cfg3 (fun _ => 0) 2 200 (1/2)).abuf.length = 1 ∧
    round ((cfg3.samplingFreq_hz : ℚ) * (1/2)) = 2 := by
  constructor
  · have h0 : (0:ℚ) ≤ (cfg3.samplingFreq_hz : ℚ) * (1/2) := by norm_num [cfg3]
    have h1 : sineBeepSampleCount cfg3 (1/2) = 1 := by
      rw [sineBeepSampleCount, cTruncToInt_eq_floor _ h0]
      have h2 : ⌊(cfg3.samplingFreq_hz : ℚ) * (1/2)⌋ = 1 := by norm_num [cfg3]
      rw [h2]
      decide
    simp only [generateSineBeep, List.length_map, List.length_range]
    exact h1
  · norm_num [cfg3, round_eq]

/-- C6 amended: for every configuration and duration with a nonnegative
rate-times-duration product, the generated PCM buffer's sample count equals
the product truncated toward zero (equivalently its floor), and its byte
length is that count times the sample width — truncation, not rounding. -/
theorem C6_sample_count_truncates (cfg : SFXConfiguration) (sampleVal : Nat → Int)
    (sz : Nat) (waveFreq_hz : Int) (waveDuration_s : ℚ)
    (h : 0 ≤ (cfg.samplingFreq_hz : ℚ) * waveDuration_s) :
    (generateSineBeep cfg sampleVal sz waveFreq_hz waveDuration_s).abuf.length =
      (⌊(cfg.samplingFreq_hz : ℚ) * waveDuration_s⌋).toNat ∧
    (generateSineBeep cfg sampleVal sz waveFreq_hz waveDuration_s).alen =
      (⌊(cfg.samplingFreq_hz : ℚ) * waveDuration_s⌋).toNat * sz := by
  have h1 : sineBeepSampleCount cfg waveDuration_s =
      (⌊(cfg.samplingFreq_hz : ℚ) * waveDuration_s⌋).toNat := by
    rw [sineBeepSampleCount, cTruncToInt_eq_floor _ h]
  simp [generateSineBeep, h1]

theorem C6_witness :
    0 ≤ ((cfg3.samplingFreq_hz : ℚ) * (1/2)) ∧
    (generateSineBeep cfg3 (fun _ => 0) 2 200 (1/2)).abuf.length =
      (⌊(cfg3.samplingFreq_hz : ℚ) * (1/2)⌋).toNat :=
  ⟨by norm_num [cfg3],
    (C6_sample_count_truncates cfg3 (fun _ => 0) 2 200 (1/2) (by norm_num [cfg3])).1⟩

/-- C7: for a loaded, not-yet-queued, non-fallback key, the first
`queueUnloadSound` appends the key to the unload queue, a second call with
the same key is a no-op returning the state unchanged, and the queue then
contains the key exactly once. -/
theorem C7_duplicate_queueUnload_noop (s : SfxState) (k : ResourceKey)
    (h1 : k ≠ s.errorSoundKey) (h2 : lookupKey s.sounds k ≠ none)
    (h3 : k ∉ s.unloadQueue) :
    queueUnloadSound s k = some { s with unloadQueue := s.unloadQueue ++ [k] } ∧
    queueUnloadSound { s with unloadQueue := s.unloadQueue ++ [k] } k =
      some { s with unloadQueue := s.unloadQueue ++ [k] } ∧
    (s.unloadQueue ++ [k]).count k = 1 := by
  refine ⟨?_, ?_, ?_⟩
  · cases hres : lookupKey s.sounds k with
    | none => exact absurd hres h2
    | some r => simp [queueUnloadSound, h1, hres, h3]
  · cases hres : lookupKey s.sounds k with
    | none => exact absurd hres h2
    | some r => simp [queueUnloadSound, h1, hres]
  · rw [List.count_append, List.count_eq_zero.mpr h3]
    simp

theorem C7_witness :
    queueUnloadSound c4State 1 =
      some { c4State with unloadQueue := c4State.unloadQueue ++ [1] } ∧
    queueUnloadSound { c4State with unloadQueue := c4State.unloadQueue ++ [1] } 1 =
      some { c4State with unloadQueue := c4State.unloadQueue ++ [1] } ∧
    (c4State.unloadQueue ++ [1]).count 1 = 1 :=
  C7_duplicate_queueUnload_noop c4State 1 (by decide) (by decide) (by decide)

/-- C8: when the requested resource key is not in the table, each of the four
play variants returns the `NULL_CHANNEL` sentinel together with the state it
was given unchanged, whatever the backend would have replied. -/
theorem C8_play_unknown_key_is_null_channel (s : SfxState) (key : ResourceKey)
    (loops fadeMs playMs : Int) (r1 r2 r3 r4 : Option Int)
    (h : lookupKey s.sounds key = none) :
    playSound s key loops r1 = some (NULL_CHANNEL, s) ∧
    playSoundTimed s key loops playMs r2 = some (NULL_CHANNEL, s) ∧
    playSoundFadeIn s key loops fadeMs r3 = some (NULL_CHANNEL, s) ∧
    playSoundFadeInTimed s key loops fadeMs playMs r4 = some (NULL_CHANNEL, s) := by
  simp [playSound, playSoundTimed, playSoundFadeIn, playSoundFadeInTimed,
    startPlayback, findChunk, h]

theorem C8_witness :
    playSound fresh8 99 0 (some 0) = some (NULL_CHANNEL, fresh8) ∧
    playSoundTimed fresh8 99 0 250 (some 0) = some (NULL_CHANNEL, fresh8) ∧
    playSoundFadeIn fresh8 99 0 100 (some 0) = some (NULL_CHANNEL, fresh8) ∧
    playSoundFadeInTimed fresh8 99 0 100 250 (some 0) = some (NULL_CHANNEL, fresh8) :=
  C8_play_unknown_key_is_null_channel fresh8 99 0 100 250
    (some 0) (some 0) (some 0) (some 0) (by decide)

/-- C9: `getChannelVolume` applied to the `NULL_CHANNEL` sentinel returns 0
in every state, whatever volumes were previously set on real channels. -/
theorem C9_getChannelVolume_null_channel (s : SfxState) :
    getChannelVolume s NULL_CHANNEL = some 0 := by
  simp [getChannelVolume]

/-- C10: loading by the reserved fallback name "sfxerror" de-duplicates
against the synthesized fallback entry: the call returns the fallback key and
increments the fallback asset's reference count, for every decoder — the
file decoder is never consulted. -/
theorem C10_load_reserved_name_hits_fallback (decode : String → Option MixChunk)
    (s : SfxState) (pre post : List (ResourceKey × SoundResource)) (er : SoundResource)
    (hs : s.sounds = pre ++ (s.errorSoundKey, er) :: post)
    (her : er.name = errorSoundName)
    (hpre : ∀ p ∈ pre, p.2.name ≠ errorSoundName) :
    loadSoundWAV decode s errorSoundName =
      some (s.errorSoundKey, { s with
        sounds := pre ++
          (s.errorSoundKey, { er with referenceCount := er.referenceCount + 1 }) :: post }) := by
  simp [loadSoundWAV, hs, findBump_spec errorSoundName pre post s.errorSoundKey er hpre her]

theorem C10_witness :
    loadSoundWAV (fun _ => none) fresh8 errorSoundName =
      some (fresh8.errorSoundKey, { fresh8 with
        sounds := [] ++
          (fresh8.errorSoundKey,
            { errRes8 with referenceCount := errRes8.referenceCount + 1 }) :: [] }) :=
  C10_load_reserved_name_hits_fallback (fun _ => none) fresh8 [] [] errRes8
    rfl rfl (by decide)

end PxrSfx
